import Mathlib

/-!
Verification of the Bank-Marketing dashboard (`streamlit_app.py`).

The development shallowly embeds the data pipeline of the script:

* the data model: tables as a column-name list plus rows of
  (column, value) pairs;
* `load_data`: reading the four parquet files and left-joining them on
  `"fact_id"` (pandas `merge(..., how="left")`);
* `execute_sql`: running a query string against the joined table via an
  in-memory relational store, catching every failure and surfacing an
  error message with an empty result frame;
* `generate_sql` and `prompt_to_sql`: the keyword phrase matchers;
* the CSV export of a query result (`to_csv(index=False)`) and a parser
  for the produced delimited text;
* the EDA page's column coercion `data['subscribed'] = data['subscribed'].astype(bool)`;
* the `subscribed_label` derived column, modelled from the spec (it is
  absent from this revision of the script).

Machine values are embedded as exact `Int`/`String`/`Bool` data; file
reading is embedded as `Option`-valued inputs; code that can fail returns
`Except`.
-/

/-- Scalar cell values of a dataframe: integers, strings, booleans and
null (NaN/None). -/
inductive Value where
  | int (n : Int)
  | str (s : String)
  | bool (b : Bool)
  | null
deriving DecidableEq, Repr

/-- A dataframe row: an ordered association list from column name to value. -/
abbrev Row := List (String × Value)

/-- A dataframe: ordered column names plus rows (each row an ordered
association list aligned with the columns). -/
structure Table where
  cols : List String
  rows : List Row
deriving DecidableEq, Repr

/-- Value of a named column in a row (first occurrence wins, as in an
association list). -/
def getv : Row → String → Option Value
  | [], _ => none
  | (k, v) :: rest, key => if k = key then some v else getv rest key

/-- The empty dataframe `pd.DataFrame()`: no columns, no rows. -/
def emptyTable : Table := ⟨[], []⟩

/-! ## Left-outer merge (pandas `DataFrame.merge(..., on=key, how="left")`) -/

/-- Columns a right table contributes to a merge: all but the join key. -/
def dimCols (rcols : List String) (key : String) : List String :=
  rcols.filter (fun c => c ≠ key)

/-- The all-null contribution of an unmatched right side: each non-key
right column paired with null. -/
def nullRow (rcols : List String) (key : String) : Row :=
  (dimCols rcols key).map (fun c => (c, Value.null))

/-- Drop the join-key entries from a right row (pandas keeps a single key
column, taken from the left side). -/
def stripKey (key : String) (r : Row) : Row :=
  r.filter (fun kv => kv.1 ≠ key)

/-- Rows of the right table whose key value equals the given one. -/
def matchesOf (R : Table) (key : String) (kv : Option Value) : List Row :=
  R.rows.filter (fun rr => getv rr key = kv)

/-- The block of output rows a single left row produces in a left-outer
merge: one row per matching right row, or a single null-padded row when
nothing matches. -/
def mergeBlock (R : Table) (key : String) (lr : Row) : List Row :=
  let ms := matchesOf R key (getv lr key)
  if ms.isEmpty then [lr ++ nullRow R.cols key] else ms.map (fun rr => lr ++ stripKey key rr)

/-- Left-outer merge of two tables on a key column, as pandas
`L.merge(R, on=key, how="left")`: every left row is kept in order, fanned
out over its matches, null-padded when unmatched. -/
def leftMerge (L R : Table) (key : String) : Table :=
  { cols := L.cols ++ dimCols R.cols key,
    rows := L.rows.flatMap (mergeBlock R key) }

/-- Structured load-time failure: a source file is missing or unreadable,
or a table lacks the join key column. -/
inductive DataLoadError where
  | missingTable (file : String)
  | missingKey
deriving DecidableEq, Repr

/-- Merge that checks the join key is present on both sides first; pandas
raises (a `KeyError`) otherwise, embedded as an `Except` error. -/
def mergeChecked (L R : Table) (key : String) : Except DataLoadError Table :=
  if key ∈ L.cols ∧ key ∈ R.cols then .ok (leftMerge L R key) else .error .missingKey

/-- The script's `load_data`: read the four parquet files (an unreadable
or missing file is embedded as `none`) and left-join fact with client,
contact and campaign in sequence, each join keyed on `"fact_id"`. Any
failure aborts the whole load. -/
def load_data (fact client contact campaign : Option Table) :
    Except DataLoadError Table :=
  match fact with
  | none => .error (.missingTable "marketing.parquet")
  | some f =>
    match client with
    | none => .error (.missingTable "client.parquet")
    | some c1 =>
      match contact with
      | none => .error (.missingTable "contact.parquet")
      | some c2 =>
        match campaign with
        | none => .error (.missingTable "campaign.parquet")
        | some c3 =>
          match mergeChecked f c1 "fact_id" with
          | .error e => .error e
          | .ok d1 =>
            match mergeChecked d1 c2 "fact_id" with
            | .error e => .error e
            | .ok d2 => mergeChecked d2 c3 "fact_id"

/-! ## The embedded SQL engine and `execute_sql` -/

/-- Split a character list at every occurrence of a separator character;
the separators are consumed. -/
def splitOnChar (c : Char) : List Char → List (List Char)
  | [] => [[]]
  | x :: xs =>
    if x = c then [] :: splitOnChar c xs
    else (splitOnChar c xs).modifyHead (fun h => x :: h)

/-- Character-wise lowercasing (Python `str.lower` on ASCII text). -/
def lowerStr (s : String) : String :=
  ⟨s.toList.map Char.toLower⟩

/-- Character-wise uppercasing, used to match SQL keywords
case-insensitively as SQLite does. -/
def upperStr (s : String) : String :=
  ⟨s.toList.map Char.toUpper⟩

/-- Remove statement-terminating semicolons from a token (SQLite accepts
a trailing `;`). -/
def stripSemi (s : String) : String :=
  ⟨s.toList.filter (fun c => c ≠ ';')⟩

/-- Whitespace tokenization of a query string. -/
def tokenize (q : String) : List String :=
  ((splitOnChar ' ' q.toList).map (fun l => stripSemi ⟨l⟩)).filter (fun s => s ≠ "")

/-- Projection of a single column, failing like SQLite does on an unknown
column name (an `OperationalError`, which `read_sql` re-raises). -/
def projectCol (c : String) (t : Table) : Except String Table :=
  if c ∈ t.cols then
    .ok ⟨[c], t.rows.map (fun r => [(c, (getv r c).getD Value.null)])⟩
  else .error ("no such column: " ++ c)

/-- Parse a non-empty all-digit character list as a natural number. -/
def digitsToNat? (l : List Char) : Option Nat :=
  if l ≠ [] ∧ l.all Char.isDigit then
    some (l.foldl (fun acc c => 10 * acc + (c.toNat - 48)) 0)
  else none

/-- Models the embedded relational engine (SQLite via `pd.read_sql`) as a
black box on the query fragment the dashboard exercises: `SELECT * FROM
data`, `SELECT * FROM data LIMIT n`, and single-column projection.  Text
outside this fragment — in particular the empty string, `"SELEC * FORM
data"` and `"SELECT * FROM data LIMIT*"`, each of which SQLite also
rejects — is a syntax error. -/
def runSql (q : String) (t : Table) : Except String Table :=
  match tokenize q with
  | [s, c, f, d] =>
    if upperStr s = "SELECT" ∧ upperStr f = "FROM" ∧ d = "data" then
      if c = "*" then .ok t else projectCol c t
    else .error ("syntax error near: " ++ q)
  | [s, c, f, d, l, n] =>
    if upperStr s = "SELECT" ∧ c = "*" ∧ upperStr f = "FROM" ∧ d = "data" ∧ upperStr l = "LIMIT" then
      match digitsToNat? n.toList with
      | some k => .ok ⟨t.cols, t.rows.take k⟩
      | none => .error ("syntax error near: " ++ q)
    else .error ("syntax error near: " ++ q)
  | _ => .error ("syntax error near: " ++ q)

/-- The script's `execute_sql`: build a fresh in-memory store holding the
working table under the name `data`, evaluate the query, and catch every
exception, displaying `Error: {e}` and handing back an empty dataframe.
The pair returned is (result frame, displayed error message). -/
def execute_sql (q : String) (t : Table) : Table × Option String :=
  match runSql q t with
  | .ok r => (r, none)
  | .error e => (emptyTable, some ("Error: " ++ e))

/-- One interaction of the SQL query page: the process-wide working table
`data` together with what the page computes from a submitted query. The
global table is not written by the page; `execute_sql` copies it into a
fresh store. -/
def sqlPageStep (q : String) (d : Table) : Table × (Table × Option String) :=
  (d, execute_sql q d)

/-- Two submissions of the same query against the same working table
(each call opens its own `:memory:` database). -/
def runTwice (q : String) (t : Table) : (Table × Option String) × (Table × Option String) :=
  (execute_sql q t, execute_sql q t)

/-! ## Phrase matchers -/

/-- Bool test: the first list is an initial segment of the second. -/
def leadsWith : List Char → List Char → Bool
  | [], _ => true
  | _ :: _, [] => false
  | a :: as, b :: bs => a = b && leadsWith as bs

/-- Bool test: the needle occurs contiguously in the haystack. -/
def hasSub (n : List Char) : List Char → Bool
  | [] => n.isEmpty
  | c :: rest => leadsWith n (c :: rest) || hasSub n rest

/-- Python's `needle in hay` substring test. -/
def occursIn (needle hay : String) : Bool :=
  hasSub needle.toList hay.toList

/-- The GenAI page's `generate_sql`: lowercase the question and dispatch
on the first matching keyword phrase, with a fixed fallback string. -/
def generate_sql (naturalQuery : String) : String :=
  let q := lowerStr naturalQuery
  if occursIn "clients over age" q then
    "SELECT * FROM data WHERE age > 50"
  else if occursIn "subscription rate by job" q then
    "SELECT job, AVG(CASE WHEN subscribed THEN 1 ELSE 0 END) * 100 AS subscription_rate FROM data GROUP BY job"
  else if occursIn "how many subscribed" q then
    "SELECT COUNT(*) AS total_subscribed FROM data WHERE subscribed = 1"
  else if occursIn "subscription by education" q then
    "SELECT education, COUNT(*) AS total, SUM(CASE WHEN subscribed THEN 1 ELSE 0 END) AS subscribed FROM data GROUP BY education"
  else
    "SELECT * FROM data LIMIT*"

/-- The static rule table of `generate_sql`: known substring paired with
the fixed query it triggers, in dispatch order. -/
def genaiRules : List (String × String) :=
  [("clients over age", "SELECT * FROM data WHERE age > 50"),
   ("subscription rate by job", "SELECT job, AVG(CASE WHEN subscribed THEN 1 ELSE 0 END) * 100 AS subscription_rate FROM data GROUP BY job"),
   ("how many subscribed", "SELECT COUNT(*) AS total_subscribed FROM data WHERE subscribed = 1"),
   ("subscription by education", "SELECT education, COUNT(*) AS total, SUM(CASE WHEN subscribed THEN 1 ELSE 0 END) AS subscribed FROM data GROUP BY education")]

/-- The fixed fallback query of `generate_sql`. -/
def genaiFallback : String := "SELECT * FROM data LIMIT*"

/-- First-match lookup over an ordered rule table with a default. -/
def firstMatch : List (String × String) → String → String → String
  | [], _, dflt => dflt
  | (p, sql) :: rest, s, dflt => if occursIn p s then sql else firstMatch rest s dflt

/-- Single quote character, used inside SQL string literals. -/
def squo : String := ⟨[Char.ofNat 39]⟩

/-- The SQL page's `prompt_to_sql`: lowercase the prompt and dispatch on
fixed keyword phrases (the first rule requires two phrases, the second
either of two), with a fixed fallback query. -/
def prompt_to_sql (prompt : String) : String :=
  let p := lowerStr prompt
  if occursIn "campaign" p && occursIn "age group" p then
    "SELECT * FROM data WHERE age_group = " ++ squo ++ "30-40" ++ squo
  else if occursIn "show all data" p || occursIn "all records" p then
    "SELECT * FROM data"
  else if occursIn "subscribed customers" p then
    "SELECT * FROM data WHERE subscribed = 1"
  else if occursIn "subscription rate by education" p then
    "SELECT education, AVG(subscribed) * 100 AS subscription_rate FROM data GROUP BY education"
  else
    "SELECT * FROM data LIMIT 10"

/-- Bool test: some rule of `prompt_to_sql` fires on the (lowercased)
prompt. -/
def promptTrigger (p : String) : Bool :=
  (occursIn "campaign" p && occursIn "age group" p) ||
  occursIn "show all data" p || occursIn "all records" p ||
  occursIn "subscribed customers" p ||
  occursIn "subscription rate by education" p

/-- The fixed fallback query of `prompt_to_sql`. -/
def promptFallback : String := "SELECT * FROM data LIMIT 10"

/-- The four fixed queries `prompt_to_sql` can produce besides its
fallback. -/
def promptQueries : List String :=
  ["SELECT * FROM data WHERE age_group = " ++ squo ++ "30-40" ++ squo,
   "SELECT * FROM data",
   "SELECT * FROM data WHERE subscribed = 1",
   "SELECT education, AVG(subscribed) * 100 AS subscription_rate FROM data GROUP BY education"]

/-! ## CSV export of a query result (`to_csv(index=False)`) -/

/-- Bool test: the character needs no CSV quoting (it is not a delimiter,
quote or line break). -/
def cleanChar (c : Char) : Bool :=
  !(c = ',' || c = '"' || c = '\n' || c = '\r')

/-- Bool test: the string needs no CSV quoting. -/
def cleanStr (s : String) : Bool :=
  s.toList.all cleanChar

/-- Minimal CSV quoting: wrap in double quotes, doubling embedded
quotes (`csv.QUOTE_MINIMAL`, the pandas default). -/
def escapeField (l : List Char) : List Char :=
  '"' :: l.flatMap (fun c => if c = '"' then ['"', '"'] else [c]) ++ ['"']

/-- Encode one CSV field, quoting exactly when it holds a special
character. -/
def encodeField (s : String) : List Char :=
  if s.toList.all cleanChar then s.toList else escapeField s.toList

/-- Text form of a cell as pandas writes it to CSV: integers in decimal,
booleans as `True`/`False`, null as the empty field. -/
def renderValue : Value → String
  | .int n => toString n
  | .str s => s
  | .bool b => if b then "True" else "False"
  | .null => ""

/-- Join CSV fields of one record with commas. -/
def joinFields : List (List Char) → List Char
  | [] => []
  | [f] => f
  | f :: g :: rest => f ++ ',' :: joinFields (g :: rest)

/-- Join CSV records, terminating every record (including the last) with
a newline, as `to_csv` does. -/
def joinRecords (rs : List (List Char)) : List Char :=
  rs.flatMap (fun r => r ++ ['\n'])

/-- The CSV header record: the encoded column names joined by commas. -/
def headerRec (t : Table) : List Char :=
  joinFields (t.cols.map encodeField)

/-- The CSV record of one data row. -/
def rowRec (r : Row) : List Char :=
  joinFields (r.map (fun kv => encodeField (renderValue kv.2)))

/-- The script's CSV export `result_data.to_csv(index=False)`: a header
record of the column names followed by one record per row. -/
def toCsv (t : Table) : String :=
  ⟨joinRecords (headerRec t :: t.rows.map rowRec)⟩

/-- Decode the body of a quoted CSV field: a doubled quote decodes to one
quote character, a single quote closes the field. Returns the decoded
content and the input remaining after the closing quote. -/
def parseQuoted : List Char → (List Char × List Char)
  | [] => ([], [])
  | c :: rest =>
    if c = '"' then
      match rest with
      | [] => ([], [])
      | c2 :: rest2 =>
        if c2 = '"' then
          let p := parseQuoted rest2
          ('"' :: p.1, p.2)
        else ([], rest)
    else
      let p := parseQuoted rest
      (c :: p.1, p.2)

/-- Read one CSV field: a leading double quote starts a quoted field,
otherwise the field runs to the next comma or newline. Returns the
decoded field and the remaining input, which starts with the delimiter
(or is empty at the end of the text). -/
def parseField : List Char → (List Char × List Char)
  | [] => ([], [])
  | c :: rest =>
    if c = '"' then parseQuoted rest
    else if c = ',' ∨ c = '\n' then ([], c :: rest)
    else
      let p := parseField rest
      (c :: p.1, p.2)

/-- Read the fields of one record, consuming its terminating newline.
The fuel (any bound of at least the field count) only makes the scan
structurally recursive; it is never exhausted on the inputs used. -/
def parseRecordF : Nat → List Char → (List String × List Char)
  | 0, _ => ([], [])
  | fuel + 1, input =>
    let p := parseField input
    match p.2 with
    | c :: r2 =>
      if c = ',' then
        let pr := parseRecordF fuel r2
        ((⟨p.1⟩ : String) :: pr.1, pr.2)
      else ([⟨p.1⟩], r2)
    | [] => ([⟨p.1⟩], [])

/-- Split CSV text into records, one per terminating newline, honouring
quoting. The fuel (any bound of at least the record count) only makes
the scan structurally recursive. -/
def parseDocF : Nat → List Char → List (List String)
  | 0, _ => []
  | fuel + 1, input =>
    if input.isEmpty then []
    else
      let pr := parseRecordF (fuel + 1) input
      pr.1 :: parseDocF fuel pr.2

/-- Re-parse exported delimited text as `pd.read_csv` reads it: records
separated by newlines and fields by commas, with double-quote quoting
honoured (so quoted fields may hold delimiters and line breaks); the
first record is the header of column names, the rest are the data rows.
-/
def parseCsv (s : String) : List String × List (List String) :=
  match parseDocF (s.toList.length + 1) s.toList with
  | [] => ([], [])
  | h :: rest => (h, rest)

/-- The default export filename wired into the download button. -/
def exportFileName : String := "query_result.csv"

/-! ## The EDA page's in-place coercion of the `subscribed` column -/

/-- Pandas `astype(bool)` on a cell: zero is false, the empty string is
false, NaN coerces to true, everything else is true. -/
def astypeBool : Value → Value
  | .int n => .bool (decide (n ≠ 0))
  | .bool b => .bool b
  | .str s => .bool (decide (s ≠ ""))
  | .null => .bool true

/-- The EDA page's statement `data['subscribed'] = data['subscribed'].astype(bool)`:
rewrite the `subscribed` column of the (process-wide) working table in
place. -/
def edaCoerceSubscribed (t : Table) : Table :=
  ⟨t.cols,
   t.rows.map (fun r => r.map (fun kv =>
     if kv.1 = "subscribed" then (kv.1, astypeBool kv.2) else kv))⟩

/-! ## The derived `subscribed_label` column -/

/-- Modelled from the spec: whether a cell value is drawn from the binary
domain 0/1 (as an integer or boolean-like value); the label computation
of the joiner, absent from this revision of the script, branches on this. -/
def valueIsBinary : Value → Bool
  | .int n => n == 0 || n == 1
  | .bool _ => true
  | _ => false

/-- Modelled from the spec: whether a binary-domain cell value stands for
1 (true). -/
def valueTruthy : Value → Bool
  | .int n => n == 1
  | .bool b => b
  | _ => false

/-- Python `str.capitalize`: first character uppercased, the rest
lowercased. -/
def capitalize (s : String) : String :=
  match s.toList with
  | [] => ""
  | c :: rest => ⟨Char.toUpper c :: rest.map Char.toLower⟩

/-- Modelled from the spec: the label of one `subscribed` cell, given
whether the whole column is binary — 1 maps to `Subscribed`, 0 to
`Not Subscribed`, and a non-binary column is treated as text and
capitalized. -/
def subscribedLabel (allBin : Bool) (v : Value) : Value :=
  if allBin then
    if valueTruthy v then .str "Subscribed" else .str "Not Subscribed"
  else .str (capitalize (renderValue v))

/-- Modelled from the spec: whether every row's `subscribed` value is
drawn from the binary 0/1 domain. -/
def allBinaryTbl (t : Table) : Bool :=
  t.rows.all (fun r =>
    match getv r "subscribed" with
    | some v => valueIsBinary v
    | none => false)

/-- Modelled from the spec: the joiner's derived-column step, absent from
this revision of the script — append a `subscribed_label` column computed
from each row's `subscribed` value under the column-wide binary test. -/
def addSubscribedLabel (t : Table) : Table :=
  ⟨t.cols ++ ["subscribed_label"],
   t.rows.map (fun r =>
     r ++ [("subscribed_label",
            subscribedLabel (allBinaryTbl t) ((getv r "subscribed").getD Value.null))])⟩

/-! ## Derived notions used by the statements -/

/-- The composed per-fact-row block of the three sequential left merges:
what one fact row contributes to the working table. -/
def joinBlock (c1 c2 c3 : Table) (key : String) (lr : Row) : List Row :=
  (mergeBlock c1 key lr).flatMap (fun r1 => (mergeBlock c2 key r1).flatMap (mergeBlock c3 key))

/-- Row count of a successfully loaded table. -/
def okRowCount : Except DataLoadError Table → Option Nat
  | .ok t => some t.rows.length
  | .error _ => none

/-- A two-row fact table, as in the spec's scenario. -/
def sampleFact : Table :=
  ⟨["fact_id", "subscribed", "age_group"],
   [[("fact_id", Value.int 1), ("subscribed", Value.int 1), ("age_group", Value.str "30-40")],
    [("fact_id", Value.int 2), ("subscribed", Value.int 0), ("age_group", Value.str "40-50")]]⟩

/-- An empty dimension table carrying only the join key. -/
def sampleDim : Table := ⟨["fact_id"], []⟩

/-- A one-row dimension table with a unique key. -/
def oneDim : Table :=
  ⟨["fact_id", "job"], [[("fact_id", Value.int 1), ("job", Value.str "admin")]]⟩

/-- A one-row fact table. -/
def dupFact : Table := ⟨["fact_id"], [[("fact_id", Value.int 1)]]⟩

/-- A dimension table holding two rows for the same key value: a
left-join fan-out. -/
def dupClient : Table :=
  ⟨["fact_id", "x"],
   [[("fact_id", Value.int 1), ("x", Value.int 7)],
    [("fact_id", Value.int 1), ("x", Value.int 8)]]⟩

/-- A table lacking the join key column. -/
def noKeyTable : Table := ⟨["id"], []⟩

/-- A small query-result table used to exercise the CSV export; the last
row holds a comma-bearing string (quoted on export) and a null. -/
def sampleResult : Table :=
  ⟨["age_group", "subscribed"],
   [[("age_group", Value.str "30-40"), ("subscribed", Value.int 1)],
    [("age_group", Value.str "40-50"), ("subscribed", Value.int 0)],
    [("age_group", Value.str "50,60"), ("subscribed", Value.null)]]⟩

/-- The concrete working table joined from the sample inputs. -/
def sampleJoined : Table :=
  leftMerge (leftMerge (leftMerge sampleFact sampleDim "fact_id") sampleDim "fact_id")
    sampleDim "fact_id"

/-! ## Theorems -/

theorem firstMatch_default (rules : List (String × String)) (s dflt : String)
    (h : ∀ p ∈ rules, occursIn p.1 s = false) : firstMatch rules s dflt = dflt := by
  induction rules with
  | nil => rfl
  | cons r rest ih =>
    obtain ⟨a, b⟩ := r
    have ha := h (a, b) (List.mem_cons_self _ _)
    simp only [firstMatch, ha, Bool.false_eq_true, if_false]
    exact ih (fun p hp => h p (List.mem_cons_of_mem _ hp))

theorem firstMatch_hit (rules : List (String × String)) (s dflt : String)
    (p : String × String) (hp : p ∈ rules) (hocc : occursIn p.1 s = true) :
    ∃ p2 ∈ rules, occursIn p2.1 s = true ∧ firstMatch rules s dflt = p2.2 := by
  induction hp with
  | head rest =>
    refine ⟨p, List.mem_cons_self _ _, hocc, ?_⟩
    obtain ⟨a, b⟩ := p
    simp only [firstMatch]
    rw [if_pos hocc]
  | tail q hmem ih =>
    obtain ⟨p2, h2, ho2, he2⟩ := ih
    by_cases hq : occursIn q.1 s = true
    · refine ⟨q, List.mem_cons_self _ _, hq, ?_⟩
      obtain ⟨a, b⟩ := q
      simp only [firstMatch]
      rw [if_pos hq]
    · refine ⟨p2, List.mem_cons_of_mem _ h2, ho2, ?_⟩
      obtain ⟨a, b⟩ := q
      simp only [firstMatch]
      rw [if_neg hq]
      exact he2

/-- C9: the phrase matchers are static mappings — `generate_sql` is the
first-match lookup over its fixed rule table, returning its fixed
fallback exactly when no known substring occurs, and the query of some
occurring substring otherwise; `prompt_to_sql` likewise returns its fixed
fallback when no rule fires and one of its four fixed queries when one
does. -/
theorem c9_phrase_matcher_static (s : String) :
    generate_sql s = firstMatch genaiRules (lowerStr s) genaiFallback ∧
    ((∀ p ∈ genaiRules, occursIn p.1 (lowerStr s) = false) →
      generate_sql s = genaiFallback) ∧
    (∀ p ∈ genaiRules, occursIn p.1 (lowerStr s) = true →
      ∃ p2 ∈ genaiRules, occursIn p2.1 (lowerStr s) = true ∧ generate_sql s = p2.2) ∧
    (promptTrigger (lowerStr s) = false → prompt_to_sql s = promptFallback) ∧
    (promptTrigger (lowerStr s) = true → prompt_to_sql s ∈ promptQueries) := by
  have h0 : generate_sql s = firstMatch genaiRules (lowerStr s) genaiFallback := rfl
  refine ⟨h0, ?_, ?_, ?_, ?_⟩
  · intro h
    exact h0.trans (firstMatch_default _ _ _ h)
  · intro p hp hocc
    obtain ⟨p2, h2, ho, he⟩ := firstMatch_hit genaiRules (lowerStr s) genaiFallback p hp hocc
    exact ⟨p2, h2, ho, h0.trans he⟩
  · intro h
    unfold prompt_to_sql
    simp only [promptTrigger, Bool.or_eq_false_iff, Bool.and_eq_false_iff] at h
    obtain ⟨⟨⟨⟨h12, h3⟩, h4⟩, h5⟩, h6⟩ := h
    rcases h12 with h1 | h2
    · simp [h1, h3, h4, h5, h6, promptFallback]
    · simp [h2, h3, h4, h5, h6, promptFallback]
  · intro h
    unfold prompt_to_sql
    by_cases h1 : occursIn "campaign" (lowerStr s) = true <;>
      by_cases h2 : occursIn "age group" (lowerStr s) = true <;>
      by_cases h3 : occursIn "show all data" (lowerStr s) = true <;>
      by_cases h4 : occursIn "all records" (lowerStr s) = true <;>
      by_cases h5 : occursIn "subscribed customers" (lowerStr s) = true <;>
      by_cases h6 : occursIn "subscription rate by education" (lowerStr s) = true <;>
      simp_all [promptTrigger, promptQueries]

/-- Witness for C9 at concrete prompts: a prompt matching no known
substring gets the fallback from each matcher. -/
theorem c9_phrase_matcher_witness :
    generate_sql "hello" = genaiFallback ∧ prompt_to_sql "hello" = promptFallback :=
  ⟨(c9_phrase_matcher_static "hello").2.1 (by decide),
   (c9_phrase_matcher_static "hello").2.2.2.1 (by decide)⟩

/-- C10: when a question matches none of the four known substrings, the
GenAI page maps it to the fallback string `SELECT * FROM data LIMIT*`,
which is not valid SQL, so executing the mapped query always produces the
empty frame together with an error message — never a row of data. -/
theorem c10_fallback_always_errors (s : String) (t : Table)
    (h1 : occursIn "clients over age" (lowerStr s) = false)
    (h2 : occursIn "subscription rate by job" (lowerStr s) = false)
    (h3 : occursIn "how many subscribed" (lowerStr s) = false)
    (h4 : occursIn "subscription by education" (lowerStr s) = false) :
    generate_sql s = "SELECT * FROM data LIMIT*" ∧
    execute_sql (generate_sql s) t =
      (emptyTable, some "Error: syntax error near: SELECT * FROM data LIMIT*") := by
  have hg : generate_sql s = "SELECT * FROM data LIMIT*" := by
    unfold generate_sql
    simp [h1, h2, h3, h4]
  exact ⟨hg, by rw [hg]; rfl⟩

/-- Witness for C10 at a concrete unmatched question and table. -/
theorem c10_fallback_witness :
    generate_sql "hello" = "SELECT * FROM data LIMIT*" ∧
    execute_sql (generate_sql "hello") sampleFact =
      (emptyTable, some "Error: syntax error near: SELECT * FROM data LIMIT*") :=
  c10_fallback_always_errors "hello" sampleFact (by decide) (by decide) (by decide) (by decide)

/-- C2: `execute_sql` is total — every evaluation either returns the
engine's result frame with no error, or the empty frame with a non-null
error message; in particular the empty string and `SELEC * FORM data`
yield the empty frame plus an error. -/
theorem c2_execute_never_raises (q : String) (t : Table) :
    ((∃ r, runSql q t = .ok r ∧ execute_sql q t = (r, none)) ∨
      (∃ m, execute_sql q t = (emptyTable, some m))) ∧
    execute_sql "" t = (emptyTable, some "Error: syntax error near: ") ∧
    execute_sql "SELEC * FORM data" t =
      (emptyTable, some "Error: syntax error near: SELEC * FORM data") := by
  refine ⟨?_, rfl, rfl⟩
  cases hr : runSql q t with
  | ok r => exact Or.inl ⟨r, rfl, by simp [execute_sql, hr]⟩
  | error e => exact Or.inr ⟨"Error: " ++ e, by simp [execute_sql, hr]⟩

/-- C7: executing the same query twice against the same working table
yields identical result tables; a successful read-only query returns its
result frame with no error both times. -/
theorem c7_idempotent_query (q : String) (t : Table) :
    (runTwice q t).1 = (runTwice q t).2 ∧
    ∀ r, runSql q t = .ok r →
      (runTwice q t).1 = (r, none) ∧ (runTwice q t).2 = (r, none) := by
  refine ⟨rfl, fun r h => ?_⟩
  constructor <;> simp [runTwice, execute_sql, h]

/-- Witness for C7: the full-table query run twice on the sample table. -/
theorem c7_idempotent_query_witness :
    (runTwice "SELECT * FROM data" sampleFact).1 = (sampleFact, none) ∧
    (runTwice "SELECT * FROM data" sampleFact).2 = (sampleFact, none) :=
  (c7_idempotent_query "SELECT * FROM data" sampleFact).2 sampleFact rfl

/-- C4 counterexample: the working table produced by the join is mutated
afterwards — the EDA page's `astype(bool)` assignment rewrites the
`subscribed` column of the joined table in place, so the claim that no
operation rewrites a column after the join returns is false. -/
theorem c4_eda_mutates_counterexample :
    load_data (some sampleFact) (some sampleDim) (some sampleDim) (some sampleDim) =
      .ok sampleJoined ∧
    edaCoerceSubscribed sampleJoined ≠ sampleJoined :=
  ⟨rfl, by decide⟩

/-- C4 amended: query execution leaves the working table unchanged (the
SQL page copies it into a fresh in-memory store), and the EDA page's
coercion rewrites only cell values of the `subscribed` column — it adds
and removes no column and no row. -/
theorem c4_query_frame (q : String) (d : Table) :
    (sqlPageStep q d).1 = d ∧
    (edaCoerceSubscribed d).cols = d.cols ∧
    (edaCoerceSubscribed d).rows.length = d.rows.length := by
  refine ⟨rfl, rfl, ?_⟩
  simp [edaCoerceSubscribed]

theorem mergeChecked_ok {L R : Table} {key : String} {d : Table}
    (h : mergeChecked L R key = .ok d) : d = leftMerge L R key := by
  unfold mergeChecked at h
  split at h
  · injection h with h2
    exact h2.symm
  · simp at h

theorem mergeChecked_pos {L R : Table} {key : String}
    (hL : key ∈ L.cols) (hR : key ∈ R.cols) :
    mergeChecked L R key = .ok (leftMerge L R key) := by
  unfold mergeChecked
  rw [if_pos ⟨hL, hR⟩]

theorem mergeChecked_neg {L R : Table} {key : String}
    (h : ¬(key ∈ L.cols ∧ key ∈ R.cols)) :
    mergeChecked L R key = .error .missingKey := by
  unfold mergeChecked
  rw [if_neg h]

theorem load_data_some_eq (f c1 c2 c3 : Table) :
    load_data (some f) (some c1) (some c2) (some c3) =
      match mergeChecked f c1 "fact_id" with
      | .error e => .error e
      | .ok d1 =>
        match mergeChecked d1 c2 "fact_id" with
        | .error e => .error e
        | .ok d2 => mergeChecked d2 c3 "fact_id" := rfl

theorem load_data_ok_eq {f c1 c2 c3 df : Table}
    (h : load_data (some f) (some c1) (some c2) (some c3) = .ok df) :
    df = leftMerge (leftMerge (leftMerge f c1 "fact_id") c2 "fact_id") c3 "fact_id" := by
  rw [load_data_some_eq] at h
  split at h
  · simp at h
  · rename_i d1 hm1
    split at h
    · simp at h
    · rename_i d2 hm2
      rw [mergeChecked_ok h, mergeChecked_ok hm2, mergeChecked_ok hm1]

theorem length_mergeBlock (R : Table) (key : String) (lr : Row)
    (u : (matchesOf R key (getv lr key)).length ≤ 1) :
    (mergeBlock R key lr).length = 1 := by
  unfold mergeBlock
  cases hms : (matchesOf R key (getv lr key)).isEmpty with
  | true => simp [hms]
  | false =>
    have hne : matchesOf R key (getv lr key) ≠ [] := by
      intro hnil
      rw [hnil] at hms
      cases hms
    have hpos : 0 < (matchesOf R key (getv lr key)).length := List.length_pos.mpr hne
    simp only [hms, Bool.false_eq_true, if_false, List.length_map]
    omega

theorem length_flatMap_mergeBlock (R : Table) (key : String) (rows : List Row)
    (u : ∀ v, (matchesOf R key v).length ≤ 1) :
    (rows.flatMap (mergeBlock R key)).length = rows.length := by
  induction rows with
  | nil => rfl
  | cons lr rest ih =>
    simp only [List.flatMap_cons, List.length_append, ih,
      length_mergeBlock R key lr (u (getv lr key)), List.length_cons]
    omega

/-- C1 counterexample: with a dimension table holding two rows for the
same `fact_id`, the left join fans out — the loaded working table has 2
rows while the fact table has 1, so equality of row counts fails for
dimension tables of arbitrary sizes. -/
theorem c1_fanout_counterexample :
    okRowCount (load_data (some dupFact) (some dupClient) (some sampleDim) (some sampleDim)) =
      some 2 ∧
    dupFact.rows.length = 1 :=
  ⟨rfl, rfl⟩

/-- C1 amended: the row count of the successfully loaded working table
equals the fact table's row count provided each dimension table holds at
most one row per join-key value (left join preserves left cardinality in
the absence of fan-out). -/
theorem c1_join_cardinality_unique_keys (f c1 c2 c3 df : Table)
    (h : load_data (some f) (some c1) (some c2) (some c3) = .ok df)
    (u1 : ∀ v, (matchesOf c1 "fact_id" v).length ≤ 1)
    (u2 : ∀ v, (matchesOf c2 "fact_id" v).length ≤ 1)
    (u3 : ∀ v, (matchesOf c3 "fact_id" v).length ≤ 1) :
    df.rows.length = f.rows.length := by
  rw [load_data_ok_eq h]
  simp only [leftMerge]
  rw [length_flatMap_mergeBlock _ _ _ u3, length_flatMap_mergeBlock _ _ _ u2,
    length_flatMap_mergeBlock _ _ _ u1]

/-- Witness for C1 at concrete tables whose dimension keys are unique. -/
theorem c1_join_cardinality_witness :
    (leftMerge (leftMerge (leftMerge sampleFact oneDim "fact_id") sampleDim "fact_id")
      sampleDim "fact_id").rows.length = sampleFact.rows.length :=
  c1_join_cardinality_unique_keys sampleFact oneDim sampleDim sampleDim
    (leftMerge (leftMerge (leftMerge sampleFact oneDim "fact_id") sampleDim "fact_id")
      sampleDim "fact_id")
    rfl
    (fun _ => List.length_filter_le _ _)
    (fun _ => by simp [matchesOf, sampleDim])
    (fun _ => by simp [matchesOf, sampleDim])

/-- C6: loading fails with a structured `DataLoadError` exactly when an
input table is missing or unreadable or lacks the `fact_id` join key; the
`Except` result carries no partial table on failure, so a failed load
halts initialization. -/
theorem c6_load_error_characterization :
    (∀ f c1 c2 c3 : Table,
      (∃ e, load_data (some f) (some c1) (some c2) (some c3) = .error e) ↔
        ("fact_id" ∉ f.cols ∨ "fact_id" ∉ c1.cols ∨ "fact_id" ∉ c2.cols ∨
          "fact_id" ∉ c3.cols)) ∧
    (∀ fo c1o c2o c3o : Option Table,
      (fo = none ∨ c1o = none ∨ c2o = none ∨ c3o = none) →
      ∃ e, load_data fo c1o c2o c3o = .error e) := by
  constructor
  · intro f c1 c2 c3
    constructor
    · rintro ⟨e, he⟩
      by_contra hcon
      push_neg at hcon
      obtain ⟨h1, h2, h3, h4⟩ := hcon
      rw [load_data_some_eq] at he
      split at he
      · rename_i e1 hm1
        rw [mergeChecked_pos h1 h2] at hm1
        cases hm1
      · rename_i d1 hm1
        have hd1 := mergeChecked_ok hm1
        subst hd1
        split at he
        · rename_i e2 hm2
          rw [mergeChecked_pos (List.mem_append_left _ h1) h3] at hm2
          cases hm2
        · rename_i d2 hm2
          have hd2 := mergeChecked_ok hm2
          subst hd2
          rw [mergeChecked_pos
            (List.mem_append_left _ (List.mem_append_left _ h1)) h4] at he
          cases he
    · intro hmiss
      rcases hmiss with h | h | h | h
      · exact ⟨.missingKey, by
          rw [load_data_some_eq, mergeChecked_neg (fun hc => h hc.1)]⟩
      · exact ⟨.missingKey, by
          rw [load_data_some_eq, mergeChecked_neg (fun hc => h hc.2)]⟩
      · by_cases hA : ("fact_id" ∈ f.cols ∧ "fact_id" ∈ c1.cols)
        · refine ⟨.missingKey, ?_⟩
          rw [load_data_some_eq, mergeChecked_pos hA.1 hA.2]
          show (match mergeChecked (leftMerge f c1 "fact_id") c2 "fact_id" with
            | .error e => Except.error e
            | .ok d2 => mergeChecked d2 c3 "fact_id") = .error .missingKey
          rw [mergeChecked_neg (fun hc => h hc.2)]
        · exact ⟨.missingKey, by rw [load_data_some_eq, mergeChecked_neg hA]⟩
      · by_cases hA : ("fact_id" ∈ f.cols ∧ "fact_id" ∈ c1.cols)
        · by_cases hB : ("fact_id" ∈ (leftMerge f c1 "fact_id").cols ∧ "fact_id" ∈ c2.cols)
          · refine ⟨.missingKey, ?_⟩
            rw [load_data_some_eq, mergeChecked_pos hA.1 hA.2]
            show (match mergeChecked (leftMerge f c1 "fact_id") c2 "fact_id" with
              | .error e => Except.error e
              | .ok d2 => mergeChecked d2 c3 "fact_id") = .error .missingKey
            rw [mergeChecked_pos hB.1 hB.2]
            show mergeChecked (leftMerge (leftMerge f c1 "fact_id") c2 "fact_id") c3 "fact_id" =
              .error .missingKey
            exact mergeChecked_neg (fun hc => h hc.2)
          · refine ⟨.missingKey, ?_⟩
            rw [load_data_some_eq, mergeChecked_pos hA.1 hA.2]
            show (match mergeChecked (leftMerge f c1 "fact_id") c2 "fact_id" with
              | .error e => Except.error e
              | .ok d2 => mergeChecked d2 c3 "fact_id") = .error .missingKey
            rw [mergeChecked_neg hB]
        · exact ⟨.missingKey, by rw [load_data_some_eq, mergeChecked_neg hA]⟩
  · intro fo c1o c2o c3o hmiss
    rcases hmiss with h | h | h | h
    · subst h; exact ⟨.missingTable "marketing.parquet", rfl⟩
    · subst h
      cases fo with
      | none => exact ⟨.missingTable "marketing.parquet", rfl⟩
      | some f => exact ⟨.missingTable "client.parquet", rfl⟩
    · subst h
      cases fo with
      | none => exact ⟨.missingTable "marketing.parquet", rfl⟩
      | some f =>
        cases c1o with
        | none => exact ⟨.missingTable "client.parquet", rfl⟩
        | some c1 => exact ⟨.missingTable "contact.parquet", rfl⟩
    · subst h
      cases fo with
      | none => exact ⟨.missingTable "marketing.parquet", rfl⟩
      | some f =>
        cases c1o with
        | none => exact ⟨.missingTable "client.parquet", rfl⟩
        | some c1 =>
          cases c2o with
          | none => exact ⟨.missingTable "contact.parquet", rfl⟩
          | some c2 => exact ⟨.missingTable "campaign.parquet", rfl⟩

/-- Witness for C6: a missing file and a missing join key each make the
load fail. -/
theorem c6_load_error_witness :
    (∃ e, load_data none (some sampleFact) (some sampleFact) (some sampleFact) = .error e) ∧
    (∃ e, load_data (some noKeyTable) (some sampleFact) (some sampleFact) (some sampleFact) =
      .error e) :=
  ⟨c6_load_error_characterization.2 none (some sampleFact) (some sampleFact) (some sampleFact)
      (Or.inl rfl),
   (c6_load_error_characterization.1 noKeyTable sampleFact sampleFact sampleFact).mpr
      (Or.inl (by decide))⟩

theorem getv_append_none {l y : Row} {key : String} (h : getv y key = none) :
    getv (l ++ y) key = getv l key := by
  induction l with
  | nil => simpa using h
  | cons kv rest ih =>
    obtain ⟨k, v⟩ := kv
    by_cases hk : k = key
    · simp [getv, hk]
    · simp [getv, hk, ih]

theorem getv_nullRow (rcols : List String) (key : String) :
    getv (nullRow rcols key) key = none := by
  unfold nullRow dimCols
  induction rcols with
  | nil => rfl
  | cons c rest ih =>
    by_cases hc : c = key
    · simpa [hc] using ih
    · simpa [hc, getv] using ih

theorem getv_stripKey (key : String) (r : Row) :
    getv (stripKey key r) key = none := by
  unfold stripKey
  induction r with
  | nil => rfl
  | cons kv rest ih =>
    obtain ⟨k, v⟩ := kv
    by_cases hk : k = key
    · simpa [hk] using ih
    · simpa [hk, getv] using ih

/-- C5: the loaded working table is the sequential left-outer join of the
fact table with client, contact and campaign, keyed on `fact_id` —
its rows are exactly the per-fact-row blocks laid out in the fact table's
row order, and a fact row matching no row of any dimension table
contributes a single row padded with nulls in every dimension column. -/
theorem c5_left_join_semantics (f c1 c2 c3 df : Table)
    (h : load_data (some f) (some c1) (some c2) (some c3) = .ok df) :
    df.rows = f.rows.flatMap (joinBlock c1 c2 c3 "fact_id") ∧
    (∀ lr ∈ f.rows,
      matchesOf c1 "fact_id" (getv lr "fact_id") = [] →
      matchesOf c2 "fact_id" (getv lr "fact_id") = [] →
      matchesOf c3 "fact_id" (getv lr "fact_id") = [] →
      joinBlock c1 c2 c3 "fact_id" lr =
        [lr ++ nullRow c1.cols "fact_id" ++ nullRow c2.cols "fact_id" ++
          nullRow c3.cols "fact_id"]) := by
  constructor
  · rw [load_data_ok_eq h]
    simp only [leftMerge, joinBlock, List.flatMap_assoc]
    rfl
  · intro lr _ h1 h2 h3
    have hb1 : mergeBlock c1 "fact_id" lr = [lr ++ nullRow c1.cols "fact_id"] := by
      simp only [mergeBlock]
      rw [h1]
      rfl
    have key2 : getv (lr ++ nullRow c1.cols "fact_id") "fact_id" = getv lr "fact_id" :=
      getv_append_none (getv_nullRow _ _)
    have hb2 : mergeBlock c2 "fact_id" (lr ++ nullRow c1.cols "fact_id") =
        [lr ++ nullRow c1.cols "fact_id" ++ nullRow c2.cols "fact_id"] := by
      simp only [mergeBlock]
      rw [key2, h2]
      rfl
    have key3 : getv (lr ++ nullRow c1.cols "fact_id" ++ nullRow c2.cols "fact_id") "fact_id" =
        getv lr "fact_id" := by
      rw [getv_append_none (getv_nullRow _ _), key2]
    have hb3 : mergeBlock c3 "fact_id"
        (lr ++ nullRow c1.cols "fact_id" ++ nullRow c2.cols "fact_id") =
        [lr ++ nullRow c1.cols "fact_id" ++ nullRow c2.cols "fact_id" ++
          nullRow c3.cols "fact_id"] := by
      simp only [mergeBlock]
      rw [key3, h3]
      rfl
    unfold joinBlock
    rw [hb1]
    simp only [List.flatMap_cons, List.flatMap_nil, List.append_nil]
    rw [hb2]
    simp only [List.flatMap_cons, List.flatMap_nil, List.append_nil]
    rw [hb3]

/-- Witness for C5 at the sample fact row against empty dimension
tables. -/
theorem c5_left_join_witness :
    joinBlock sampleDim sampleDim sampleDim "fact_id"
        [("fact_id", Value.int 1), ("subscribed", Value.int 1),
          ("age_group", Value.str "30-40")] =
      [[("fact_id", Value.int 1), ("subscribed", Value.int 1),
          ("age_group", Value.str "30-40")] ++
        nullRow sampleDim.cols "fact_id" ++ nullRow sampleDim.cols "fact_id" ++
        nullRow sampleDim.cols "fact_id"] :=
  (c5_left_join_semantics sampleFact sampleDim sampleDim sampleDim sampleJoined rfl).2
    [("fact_id", Value.int 1), ("subscribed", Value.int 1), ("age_group", Value.str "30-40")]
    (by decide) rfl rfl rfl

/-- C3: the derived `subscribed_label` (modelled from the spec, since the
label computation is absent from this revision of the script) is a pure
per-row function of the `subscribed` value under the column-wide binary
test — when the column is binary, 1 maps to `Subscribed` and 0 to
`Not Subscribed`; otherwise the value's text form is capitalized.
Determinism under re-running is inherent: the labelling is a function of
the input table alone. -/
theorem c3_subscribed_label_pure (t : Table) :
    (∀ (i : Nat) (r : Row), t.rows[i]? = some r →
      (addSubscribedLabel t).rows[i]? =
        some (r ++ [("subscribed_label",
          subscribedLabel (allBinaryTbl t) ((getv r "subscribed").getD Value.null))])) ∧
    (allBinaryTbl t = true →
      ∀ v, subscribedLabel (allBinaryTbl t) v =
        (if valueTruthy v then Value.str "Subscribed" else Value.str "Not Subscribed")) ∧
    (allBinaryTbl t = false →
      ∀ v, subscribedLabel (allBinaryTbl t) v = Value.str (capitalize (renderValue v))) ∧
    subscribedLabel true (Value.int 1) = Value.str "Subscribed" ∧
    subscribedLabel true (Value.int 0) = Value.str "Not Subscribed" ∧
    (∀ s, subscribedLabel false (Value.str s) = Value.str (capitalize s)) := by
  refine ⟨?_, ?_, ?_, rfl, rfl, fun s => rfl⟩
  · intro i r h
    simp [addSubscribedLabel, List.getElem?_map, h]
  · intro hb v
    rw [hb]
    rfl
  · intro hb v
    rw [hb]
    rfl

/-- Witness for C3 on the sample fact table, whose `subscribed` column is
binary. -/
theorem c3_subscribed_label_witness :
    (addSubscribedLabel sampleFact).rows[0]? =
      some ([("fact_id", Value.int 1), ("subscribed", Value.int 1),
        ("age_group", Value.str "30-40")] ++
        [("subscribed_label", subscribedLabel (allBinaryTbl sampleFact)
          ((getv [("fact_id", Value.int 1), ("subscribed", Value.int 1),
            ("age_group", Value.str "30-40")] "subscribed").getD Value.null))]) ∧
    subscribedLabel (allBinaryTbl sampleFact) (Value.int 1) =
      (if valueTruthy (Value.int 1) then Value.str "Subscribed"
       else Value.str "Not Subscribed") :=
  ⟨(c3_subscribed_label_pure sampleFact).1 0
      [("fact_id", Value.int 1), ("subscribed", Value.int 1),
        ("age_group", Value.str "30-40")] rfl,
   (c3_subscribed_label_pure sampleFact).2.1 rfl (Value.int 1)⟩


theorem encodeField_clean {s : String} (h : cleanStr s = true) :
    encodeField s = s.toList := by
  unfold cleanStr at h
  unfold encodeField
  rw [if_pos h]

theorem encodeField_dirty {s : String} (h : cleanStr s = false) :
    encodeField s = escapeField s.toList := by
  unfold cleanStr at h
  unfold encodeField
  have hn : ¬(s.toList.all cleanChar = true) := by
    rw [h]
    simp
  rw [if_neg hn]

theorem cleanChar_spec {c : Char} (h : cleanChar c = true) :
    c ≠ ',' ∧ c ≠ '"' ∧ c ≠ '\n' := by
  refine ⟨?_, ?_, ?_⟩ <;> intro he <;> subst he <;> exact absurd h (by decide)

theorem parseQuoted_cons_ne (c : Char) (rest : List Char) (hc : c ≠ '"') :
    parseQuoted (c :: rest) = (c :: (parseQuoted rest).1, (parseQuoted rest).2) := by
  rw [parseQuoted.eq_def]
  dsimp only
  rw [if_neg hc]

theorem parseQuoted_quote_quote (rest2 : List Char) :
    parseQuoted ('"' :: '"' :: rest2) =
      ('"' :: (parseQuoted rest2).1, (parseQuoted rest2).2) := by
  rw [parseQuoted.eq_def]
  dsimp only
  rw [if_pos rfl, if_pos rfl]

theorem parseQuoted_quote_ne (c2 : Char) (rest2 : List Char) (h : c2 ≠ '"') :
    parseQuoted ('"' :: c2 :: rest2) = ([], c2 :: rest2) := by
  rw [parseQuoted.eq_def]
  dsimp only
  rw [if_pos rfl, if_neg h]

theorem parseQuoted_escape :
    ∀ (l tail : List Char), tail.head? ≠ some '"' →
      parseQuoted (l.flatMap (fun c => if c = '"' then ['"', '"'] else [c]) ++ '"' :: tail) =
        (l, tail) := by
  intro l
  induction l with
  | nil =>
    intro tail h
    cases tail with
    | nil => rfl
    | cons c2 rest2 =>
      have hc2 : c2 ≠ '"' := by
        intro he
        subst he
        exact h rfl
      show parseQuoted ('"' :: c2 :: rest2) = ([], c2 :: rest2)
      exact parseQuoted_quote_ne c2 rest2 hc2
  | cons c cs ih =>
    intro tail h
    by_cases hc : c = '"'
    · subst hc
      have hesc : (('"' :: cs).flatMap (fun x => if x = '"' then ['"', '"'] else [x])) =
          '"' :: '"' :: cs.flatMap (fun x => if x = '"' then ['"', '"'] else [x]) := by
        simp
      rw [hesc, List.cons_append, List.cons_append, parseQuoted_quote_quote, ih tail h]
    · have hesc : ((c :: cs).flatMap (fun x => if x = '"' then ['"', '"'] else [x])) =
          c :: cs.flatMap (fun x => if x = '"' then ['"', '"'] else [x]) := by
        simp [hc]
      rw [hesc, List.cons_append, parseQuoted_cons_ne c _ hc, ih tail h]

theorem parseField_raw :
    ∀ (l tail : List Char), (∀ x ∈ l, cleanChar x = true) →
      (tail = [] ∨ tail.head? = some ',' ∨ tail.head? = some '\n') →
      parseField (l ++ tail) = (l, tail) := by
  intro l
  induction l with
  | nil =>
    intro tail _ htail
    rcases htail with rfl | h | h
    · rfl
    · cases tail with
      | nil => simp at h
      | cons c t =>
        have hc : c = ',' := by simpa using h
        subst hc
        simp [parseField]
    · cases tail with
      | nil => simp at h
      | cons c t =>
        have hc : c = '\n' := by simpa using h
        subst hc
        simp [parseField]
  | cons c cs ih =>
    intro tail hcl htail
    have hc := cleanChar_spec (hcl c (List.mem_cons_self _ _))
    simp only [List.cons_append, parseField, List.append_eq]
    rw [if_neg hc.2.1, if_neg (fun hor => hor.elim hc.1 hc.2.2),
      ih tail (fun x hx => hcl x (List.mem_cons_of_mem _ hx)) htail]

theorem parseField_encode (s : String) (tail : List Char)
    (htail : tail = [] ∨ tail.head? = some ',' ∨ tail.head? = some '\n') :
    parseField (encodeField s ++ tail) = (s.toList, tail) := by
  cases hcl : cleanStr s with
  | true =>
    rw [encodeField_clean hcl]
    refine parseField_raw s.toList tail ?_ htail
    unfold cleanStr at hcl
    exact List.all_eq_true.mp hcl
  | false =>
    rw [encodeField_dirty hcl]
    unfold escapeField
    have he : (('"' :: s.toList.flatMap (fun c => if c = '"' then ['"', '"'] else [c]) ++ ['"']) ++
        tail) =
        '"' :: (s.toList.flatMap (fun c => if c = '"' then ['"', '"'] else [c]) ++ '"' :: tail) := by
      simp
    have hpf : ∀ X : List Char, parseField ('"' :: X) = parseQuoted X := by
      intro X
      simp [parseField]
    rw [he, hpf]
    refine parseQuoted_escape _ tail ?_
    rcases htail with rfl | h | h
    · simp
    · rw [h]
      simp
    · rw [h]
      simp

theorem parseRecordF_encode :
    ∀ (ss : List String) (fuel : Nat) (rest : List Char), ss ≠ [] → ss.length ≤ fuel →
      parseRecordF fuel (joinFields (ss.map encodeField) ++ '\n' :: rest) = (ss, rest) := by
  intro ss
  induction ss with
  | nil => intro fuel rest h _; exact absurd rfl h
  | cons s ss2 ih =>
    intro fuel rest _ hfuel
    obtain ⟨f, rfl⟩ : ∃ f, fuel = f + 1 :=
      ⟨fuel - 1, by simp only [List.length_cons] at hfuel; omega⟩
    cases ss2 with
    | nil =>
      simp only [List.map_cons, List.map_nil, joinFields, parseRecordF]
      rw [parseField_encode s ('\n' :: rest) (Or.inr (Or.inr rfl))]
      rfl
    | cons s2 ss3 =>
      have hj : joinFields ((s :: s2 :: ss3).map encodeField) =
          encodeField s ++ ',' :: joinFields ((s2 :: ss3).map encodeField) := rfl
      rw [hj]
      simp only [List.append_assoc, List.cons_append]
      simp only [parseRecordF]
      rw [parseField_encode s
        (',' :: (joinFields ((s2 :: ss3).map encodeField) ++ '\n' :: rest))
        (Or.inr (Or.inl rfl))]
      have hf2 : (s2 :: ss3).length ≤ f := by
        simp only [List.length_cons] at hfuel ⊢
        omega
      rw [show ((s.toList, (',' :: (joinFields ((s2 :: ss3).map encodeField) ++ '\n' :: rest))) :
          List Char × List Char).2 =
          ',' :: (joinFields ((s2 :: ss3).map encodeField) ++ '\n' :: rest) from rfl]
      simp only [reduceIte]
      rw [ih f rest (by simp) hf2]
      rfl

theorem fields_le_joinFields :
    ∀ fs : List (List Char), fs.length ≤ (joinFields fs).length + 1 := by
  intro fs
  induction fs with
  | nil => simp [joinFields]
  | cons f rest ih =>
    cases rest with
    | nil => simp [joinFields]
    | cons g rest2 =>
      have hj : joinFields (f :: g :: rest2) = f ++ ',' :: joinFields (g :: rest2) := rfl
      rw [hj]
      simp only [List.length_cons, List.length_append] at ih ⊢
      omega

theorem joinRecords_cons (r : List Char) (rs : List (List Char)) :
    joinRecords (r :: rs) = r ++ '\n' :: joinRecords rs := by
  simp [joinRecords]

theorem parseDocF_encode :
    ∀ (sss : List (List String)) (fuel : Nat), (∀ ss ∈ sss, ss ≠ []) →
      (joinRecords (sss.map (fun ss => joinFields (ss.map encodeField)))).length + 1 ≤ fuel →
      parseDocF fuel (joinRecords (sss.map (fun ss => joinFields (ss.map encodeField)))) =
        sss := by
  intro sss
  induction sss with
  | nil =>
    intro fuel _ hfuel
    obtain ⟨f, rfl⟩ : ∃ f, fuel = f + 1 := ⟨fuel - 1, by omega⟩
    rfl
  | cons ss rest ih =>
    intro fuel hne hfuel
    obtain ⟨f, rfl⟩ : ∃ f, fuel = f + 1 := ⟨fuel - 1, by omega⟩
    rw [List.map_cons, joinRecords_cons] at hfuel ⊢
    simp only [parseDocF]
    rw [if_neg (by simp)]
    have hlen : ss.length ≤ f + 1 := by
      have h1 := fields_le_joinFields (ss.map encodeField)
      rw [List.length_map] at h1
      simp only [List.length_append, List.length_cons] at hfuel
      omega
    rw [parseRecordF_encode ss (f + 1)
      (joinRecords (rest.map (fun ss => joinFields (ss.map encodeField))))
      (hne ss (List.mem_cons_self _ _)) hlen]
    show ss :: parseDocF f (joinRecords (rest.map (fun ss => joinFields (ss.map encodeField)))) =
      ss :: rest
    rw [ih f (fun s2 h2 => hne s2 (List.mem_cons_of_mem _ h2))
      (by simp only [List.length_append, List.length_cons] at hfuel; omega)]

/-- C8 counterexample: on a failed query the script exports the empty
zero-column frame `pd.DataFrame()`; its CSV text is a single newline,
and re-parsing that text does not reproduce the (empty) column list, so
the round-trip claim fails for this query result table. -/
theorem c8_empty_frame_counterexample :
    (execute_sql "" emptyTable).1 = emptyTable ∧
    toCsv emptyTable = "\n" ∧
    (parseCsv (toCsv emptyTable)).1 ≠ emptyTable.cols :=
  ⟨rfl, rfl, by decide⟩

/-- C8 amended: for every query result table with at least one column
(each row carrying one cell per column, as every dataframe row does),
the CSV export has the column names as its header record, is offered
under the fixed default filename `query_result.csv`, and re-parsing the
exported text reproduces the column names, every cell's text, and hence
the row count — quoting included; only the zero-column frame of the
error path fails to round-trip. -/
theorem c8_export_roundtrip (t : Table)
    (hne : t.cols ≠ [])
    (hwf : ∀ r ∈ t.rows, r.map Prod.fst = t.cols) :
    parseCsv (toCsv t) =
      (t.cols, t.rows.map (fun r => r.map (fun kv => renderValue kv.2))) ∧
    (parseCsv (toCsv t)).2.length = t.rows.length ∧
    exportFileName = "query_result.csv" := by
  have hdoc : (toCsv t).toList =
      joinRecords ((t.cols :: t.rows.map (fun r => r.map (fun kv => renderValue kv.2))).map
        (fun ss => joinFields (ss.map encodeField))) := by
    have hrows : t.rows.map rowRec =
        t.rows.map ((fun ss => joinFields (ss.map encodeField)) ∘
          fun r => r.map (fun kv => renderValue kv.2)) :=
      List.map_congr_left (fun r _ => by
        show joinFields (r.map (fun kv => encodeField (renderValue kv.2))) =
          joinFields ((r.map (fun kv => renderValue kv.2)).map encodeField)
        rw [List.map_map]
        rfl)
    show joinRecords (headerRec t :: t.rows.map rowRec) = _
    rw [hrows, List.map_cons, List.map_map]
    rfl
  have hnonempty : ∀ ss ∈ t.cols :: t.rows.map (fun r => r.map (fun kv => renderValue kv.2)),
      ss ≠ [] := by
    intro ss hss
    rcases List.mem_cons.mp hss with rfl | hss2
    · exact hne
    · obtain ⟨r, hr, rfl⟩ := List.mem_map.mp hss2
      intro hnil
      rw [List.map_eq_nil_iff] at hnil
      subst hnil
      exact hne ((hwf [] hr).symm)
  have hp2 : parseDocF ((toCsv t).toList.length + 1) (toCsv t).toList =
      t.cols :: t.rows.map (fun r => r.map (fun kv => renderValue kv.2)) := by
    rw [hdoc]
    exact parseDocF_encode _ _ hnonempty (le_refl _)
  refine ⟨?_, ?_, rfl⟩
  · unfold parseCsv
    rw [hp2]
  · unfold parseCsv
    rw [hp2]
    simp

/-- Witness for C8 at a concrete result table whose last row needs
quoting (a comma-bearing string) and holds a null. -/
theorem c8_export_roundtrip_witness :
    parseCsv (toCsv sampleResult) =
      (sampleResult.cols,
        sampleResult.rows.map (fun r => r.map (fun kv => renderValue kv.2))) ∧
    (parseCsv (toCsv sampleResult)).2.length = sampleResult.rows.length ∧
    exportFileName = "query_result.csv" :=
  c8_export_roundtrip sampleResult (by decide) (by decide)
